import Mathlib

/-!
Shallow embedding of the microblog backend (FastAPI + SQLAlchemy + PostgreSQL)
found under `backend/app`.  Rows of the five tables are plain structures, the
database is a `Store` of row lists, and each HTTP endpoint becomes a pure
function from a `Store` (plus request data) to a response together with the
successor `Store`.  File-system state (the uploads directory) is a list of
file names inside the `Store`; per-file removal failures are modelled by a
boolean oracle passed to the operation.
-/

namespace Microblog

/-- Row of table `users` (`backend/app/db/models/user.py`). -/
structure User where
  id : Nat
  name : String
  api_key : String
deriving DecidableEq, Repr

/-- Row of table `tweets` (`backend/app/db/models/tweet.py`, class `Tweet`). -/
structure Tweet where
  id : Nat
  content : String
  user_id : Nat
deriving DecidableEq, Repr

/-- Row of table `tweet_media` (`backend/app/db/models/tweet.py`, class
`TweetMedia`); `tweet_id` is nullable. -/
structure TweetMedia where
  id : Nat
  url : String
  tweet_id : Option Nat
  user_id : Nat
deriving DecidableEq, Repr

/-- Row of table `likes` (`backend/app/db/models/tweet.py`, class `Like`);
`user_id` and `tweet_id` are NOT NULL. -/
structure Like where
  id : Nat
  user_id : Nat
  tweet_id : Nat
deriving DecidableEq, Repr

/-- Row of table `follows` (`backend/app/db/models/follow.py`). -/
structure Follow where
  id : Nat
  follower_id : Nat
  following_id : Nat
deriving DecidableEq, Repr

/-- The relational store plus the uploads directory.  `uploaded_files` holds
the bare file names present in `UPLOADS_DIR`; `next_id` models the id
sequences (a single counter is a faithful refinement: ids are fresh). -/
structure Store where
  users : List User
  tweets : List Tweet
  medias : List TweetMedia
  likes : List Like
  follows : List Follow
  uploaded_files : List String
  next_id : Nat
deriving DecidableEq, Repr

/-- Configuration read from the environment (`backend/app/config.py`):
`ALLOWED_TYPES = os.getenv("ALLOWED_TYPES")` is a single raw string and
`MAX_FILE_SIZE` an integer. -/
structure Config where
  allowed_types : String
  max_file_size : Nat
deriving DecidableEq, Repr

/-- View of one liker in a formatted tweet (`format_tweets` in
`backend/app/api/api_utils.py`). -/
structure LikerView where
  user_id : Nat
  name : String
deriving DecidableEq, Repr

/-- View of the author in a formatted tweet. -/
structure AuthorView where
  id : Nat
  name : String
deriving DecidableEq, Repr

/-- One element of the `tweets` list returned by GET /tweets
(`format_tweets` in `backend/app/api/api_utils.py`). -/
structure FormattedTweet where
  id : Nat
  content : String
  attachments : List String
  author : AuthorView
  likes : List LikerView
deriving DecidableEq, Repr

/-- Responses of the modelled endpoints.  `apiError` carries the HTTP status
code and the `error_type` field of the error envelope built by `api_error`
(`backend/app/api/api_utils.py`). -/
inductive ApiResult where
  | tweetCreated (tweet_id : Nat)
  | mediaUploaded (media_id : Nat)
  | done
  | feed (tweets : List FormattedTweet)
  | apiError (status : Nat) (error_type : String)
deriving DecidableEq, Repr

/-- `get_user_by_api_key` (`backend/app/db/db_utils.py`): the user row whose
`api_key` equals the header, or none. -/
def get_user_by_api_key (s : Store) (api_key : String) : Option User :=
  s.users.find? (fun u => u.api_key == api_key)

/-- `get_tweet_by_id` (`backend/app/db/db_utils.py`). -/
def get_tweet_by_id (s : Store) (tweet_id : Nat) : Option Tweet :=
  s.tweets.find? (fun t => t.id == tweet_id)

/-- `get_like_by_tweet_and_user_id` (`backend/app/db/db_utils.py`). -/
def get_like_by_tweet_and_user_id (s : Store) (tweet_id user_id : Nat) :
    Option Like :=
  s.likes.find? (fun l => l.tweet_id == tweet_id && l.user_id == user_id)

/-- `get_user_by_id` (`backend/app/db/db_utils.py`). -/
def get_user_by_id (s : Store) (user_id : Nat) : Option User :=
  s.users.find? (fun u => u.id == user_id)

/-- `get_follow_by_users_id` (`backend/app/db/db_utils.py`). -/
def get_follow_by_users_id (s : Store) (follower_id following_id : Nat) :
    Option Follow :=
  s.follows.find?
    (fun f => f.follower_id == follower_id && f.following_id == following_id)

/-- Python's substring test `needle in hay` on strings, used by
`upload_media` as `upload_file.content_type not in ALLOWED_TYPES`
(`backend/app/api/endpoints/tweets.py`) because `ALLOWED_TYPES` is a raw
string, not a collection. -/
def str_contains (hay needle : String) : Bool :=
  (List.range (hay.toList.length + 1)).any
    (fun i => needle.toList.isPrefixOf (hay.toList.drop i))

/-- `upload_file.filename.split(".")[-1]` in `upload_media`: the characters
after the last dot (the whole name when there is no dot). -/
def last_ext (filename : String) : String :=
  String.mk ((filename.toList.reverse.takeWhile (fun c => c ≠ '.')).reverse)

/-- The `author` relationship of a tweet (FK `tweets.user_id -> users.id`). -/
def author_view (s : Store) (t : Tweet) : AuthorView :=
  match s.users.find? (fun u => u.id == t.user_id) with
  | some u => { id := u.id, name := u.name }
  | none => { id := t.user_id, name := "" }

/-- One element of `format_tweets` (`backend/app/api/api_utils.py`): the
tweet's media rows give `attachments`, the FULL list of its like rows (each
joined to its user) gives `likes`; `selectinload` loads each related row
exactly once, so the lists below are one entry per relational row. -/
def format_tweet (s : Store) (t : Tweet) : FormattedTweet :=
  { id := t.id
    content := t.content
    attachments := (s.medias.filter (fun m => m.tweet_id == some t.id)).map
      (fun m => m.url)
    author := author_view s t
    likes := (s.likes.filter (fun l => l.tweet_id == t.id)).map
      (fun l =>
        match s.users.find? (fun u => u.id == l.user_id) with
        | some u => { user_id := u.id, name := u.name }
        | none => { user_id := l.user_id, name := "" }) }

/-- `format_tweets` (`backend/app/api/api_utils.py`). -/
def format_tweets (s : Store) (tweets : List Tweet) : List FormattedTweet :=
  tweets.map (format_tweet s)

/-- Row count of the `followed_user_likes` CTE of `get_tweets_feed`
(`backend/app/api/endpoints/tweets.py`) for one tweet id: likes joined to
their user (`Like.user_id == User.id`) joined to the follow edges
`Follow.following_id == User.id AND Follow.follower_id == req_id`, grouped
by `Like.tweet_id` and counted with `func.count(Like.id)` — i.e. the number
of JOIN ROWS, before any deduplication. -/
def followed_user_likes_count (s : Store) (req_id tweet_id : Nat) : Nat :=
  ((s.likes.filter (fun l => l.tweet_id == tweet_id)).flatMap (fun l =>
    (s.users.filter (fun u => u.id == l.user_id)).flatMap (fun u =>
      s.follows.filter
        (fun f => f.following_id == u.id && f.follower_id == req_id)))).length

/-- The sort key the feed query orders by: the CTE has a row for a tweet iff
its join-row count is positive, and the LEFT OUTER JOIN to the CTE yields
SQL NULL (here `none`) for the other tweets. -/
def feed_sort_key (s : Store) (req_id tweet_id : Nat) : Option Nat :=
  let c := followed_user_likes_count s req_id tweet_id
  if c == 0 then none else some c

/-- PostgreSQL `ORDER BY key DESC`: descending, and NULL sorts as if larger
than every non-null value (NULLS FIRST is the default for DESC order).
`key_le a b` says a may come before b. -/
def key_le : Option Nat → Option Nat → Bool
  | none, _ => true
  | some _, none => false
  | some m, some n => n ≤ m

/-- FROM/JOIN/WHERE part of the feed query of `get_tweets_feed`
(`backend/app/api/endpoints/tweets.py`): `Tweet` inner-joined to `User` on
`Tweet.user_id == User.id`, left-outer-joined to `Follow` on
`Follow.following_id == Tweet.user_id AND Follow.follower_id == req_id`,
filtered by `(Follow.follower_id == req_id) | (Tweet.user_id == req_id)`
(a NULL `Follow.follower_id` from the outer join makes the left disjunct
unknown, hence false).  The result lists the surviving `Tweet` rows, once
per surviving join row. -/
def feed_rows_for (s : Store) (req_id : Nat) (t : Tweet) : List Tweet :=
  (s.users.filter (fun u => u.id == t.user_id)).flatMap (fun _ =>
    let fs := s.follows.filter
      (fun f => f.following_id == t.user_id && f.follower_id == req_id)
    let joined : List (Option Follow) :=
      if fs.isEmpty then [none] else fs.map some
    (joined.filter (fun of =>
      (of.map Follow.follower_id == some req_id) || (t.user_id == req_id))).map
      (fun _ => t))

/-- All rows produced by the feed query's FROM/JOIN/WHERE, in table order. -/
def feed_rows (s : Store) (req_id : Nat) : List Tweet :=
  s.tweets.flatMap (feed_rows_for s req_id)

/-- The order relation on tweets induced by the feed sort key. -/
def feed_le (s : Store) (req_id : Nat) (t1 t2 : Tweet) : Prop :=
  key_le (feed_sort_key s req_id t1.id) (feed_sort_key s req_id t2.id) = true

instance (s : Store) (req_id : Nat) : DecidableRel (feed_le s req_id) :=
  fun t1 t2 => by unfold feed_le; infer_instance

/-- The ordered tweet rows returned by the feed query: the surviving rows
sorted by `ORDER BY followed_user_likes_count DESC` under PostgreSQL's
NULLS-FIRST-for-DESC rule (a stable sort, one refinement of the
tie order the query leaves unspecified). -/
def get_tweets_feed_rows (s : Store) (req_id : Nat) : List Tweet :=
  (feed_rows s req_id).insertionSort (feed_le s req_id)

/-- `get_tweets_feed` (`backend/app/api/endpoints/tweets.py`): authenticate,
run the feed query, format the tweets.  Read-only. -/
def get_tweets_feed (s : Store) (api_key : String) : ApiResult :=
  match get_user_by_api_key s api_key with
  | none => .apiError 401 "authentication_error"
  | some u => .feed (format_tweets s (get_tweets_feed_rows s u.id))

/-- `create_tweet` (`backend/app/api/endpoints/tweets.py`): authenticate;
when the media-id list is non-empty (Python truthiness), count the
`TweetMedia` rows with id in the list AND owned by the user and reject with
404 unless the count equals the list length (no check that the media is
unattached); insert the tweet; when the list is non-empty, point every
media row with id in the list at the new tweet. -/
def create_tweet (s : Store) (api_key content : String)
    (tweet_media_ids : List Nat) : ApiResult × Store :=
  match get_user_by_api_key s api_key with
  | none => (.apiError 401 "authentication_error", s)
  | some u =>
    if tweet_media_ids ≠ [] ∧
        ((s.medias.filter (fun m =>
          tweet_media_ids.contains m.id && m.user_id == u.id)).length ≠
          tweet_media_ids.length) then
      (.apiError 404 "not_found", s)
    else
      let tid := s.next_id
      let medias' :=
        if tweet_media_ids = [] then s.medias
        else s.medias.map (fun m =>
          if tweet_media_ids.contains m.id then { m with tweet_id := some tid }
          else m)
      (.tweetCreated tid,
        { s with tweets := s.tweets ++ [{ id := tid, content := content,
                                          user_id := u.id }],
                 medias := medias',
                 next_id := s.next_id + 1 })

/-- `upload_media` (`backend/app/api/endpoints/tweets.py`): authenticate;
reject with 400 when the content type is not a SUBSTRING of the configured
`ALLOWED_TYPES` string; reject with 413 (`HTTP_PAYLOAD_TOO_LARGE`) when the
file size exceeds `MAX_FILE_SIZE`; otherwise write the file under a fresh
uuid-based name (`fresh_name` models `uuid.uuid4()`) and insert the
`TweetMedia` row with `url = "uploads/<name>"` and no tweet. -/
def upload_media (cfg : Config) (s : Store) (api_key content_type : String)
    (file_size : Nat) (filename fresh_name : String) : ApiResult × Store :=
  match get_user_by_api_key s api_key with
  | none => (.apiError 401 "authentication_error", s)
  | some u =>
    if !(str_contains cfg.allowed_types content_type) then
      (.apiError 400 "validation_error", s)
    else if cfg.max_file_size < file_size then
      (.apiError 413 "validation_error", s)
    else
      let stored := fresh_name ++ "." ++ last_ext filename
      (.mediaUploaded s.next_id,
        { s with uploaded_files := s.uploaded_files ++ [stored],
                 medias := s.medias ++ [{ id := s.next_id,
                                          url := "uploads/" ++ stored,
                                          tweet_id := none,
                                          user_id := u.id }],
                 next_id := s.next_id + 1 })

/-- `Path(url).name`: the part after the last slash. -/
def base_name (url : String) : String :=
  String.mk ((url.toList.reverse.takeWhile (fun c => c ≠ '/')).reverse)

/-- `delete_files` (`backend/app/api/endpoints/tweets.py`): for each url,
take its base name under `UPLOADS_DIR`; a removal task is created only for
files that exist; all tasks are started by `asyncio.gather`, so one task's
failure does not cancel the others (each `to_thread` runs to completion),
but `gather` re-raises the first failure.  `remove_fails name = true`
models `os.remove` raising for that file.  Returns whether an exception
propagates out of `delete_files`, and the new contents of the uploads
directory (files whose removal succeeded are gone). -/
def delete_files (remove_fails : String → Bool) (files : List String)
    (urls : List String) : Bool × List String :=
  let names := (urls.map base_name).filter (fun n => files.contains n)
  (names.any remove_fails,
    files.filter (fun f => !(names.contains f && !remove_fails f)))

/-- `delete_tweet` (`backend/app/api/endpoints/tweets.py`): authenticate;
404 unless the tweet exists and is owned; collect the urls of its media
rows; `delete_files`; then `db.delete(tweet)`.  If `delete_files` raises,
the generic handler returns 500 and the transaction is rolled back: no row
changes, but files already unlinked stay unlinked.  The ORM delete cascades
to the `media` relationship (`cascade="all, delete-orphan"`), but the
`likes` relationship has NO delete cascade and `likes.tweet_id` has no
`ondelete`, so flushing the delete nullifies `likes.tweet_id`, which is
NOT NULL: with any like row present the transaction fails (IntegrityError
at commit, a 500 for the caller) and every row survives the rollback. -/
def delete_tweet (remove_fails : String → Bool) (s : Store)
    (api_key : String) (tweet_id : Nat) : ApiResult × Store :=
  match get_user_by_api_key s api_key with
  | none => (.apiError 401 "authentication_error", s)
  | some u =>
    match get_tweet_by_id s tweet_id with
    | none => (.apiError 404 "not_found", s)
    | some t =>
      if t.user_id ≠ u.id then (.apiError 404 "not_found", s)
      else
        let urls := (s.medias.filter (fun m => m.tweet_id == some tweet_id)).map
          (fun m => m.url)
        let fd := delete_files remove_fails s.uploaded_files urls
        if fd.fst then
          (.apiError 500 "server_error", { s with uploaded_files := fd.snd })
        else if s.likes.any (fun l => l.tweet_id == tweet_id) then
          (.apiError 500 "server_error", { s with uploaded_files := fd.snd })
        else
          (.done,
            { s with tweets := s.tweets.filter (fun tw => tw.id ≠ tweet_id),
                     medias := s.medias.filter
                       (fun m => m.tweet_id ≠ some tweet_id),
                     uploaded_files := fd.snd })

/-- `create_like` (`backend/app/api/endpoints/tweets.py`): authenticate;
404 when the tweet is missing; 409 when a like by this user on this tweet
already exists; otherwise insert the like row. -/
def create_like (s : Store) (api_key : String) (tweet_id : Nat) :
    ApiResult × Store :=
  match get_user_by_api_key s api_key with
  | none => (.apiError 401 "authentication_error", s)
  | some u =>
    match get_tweet_by_id s tweet_id with
    | none => (.apiError 404 "not_found", s)
    | some _ =>
      match get_like_by_tweet_and_user_id s tweet_id u.id with
      | some _ => (.apiError 409 "like_already_exists", s)
      | none =>
        (.done,
          { s with likes := s.likes ++ [{ id := s.next_id, user_id := u.id,
                                          tweet_id := tweet_id }],
                   next_id := s.next_id + 1 })

/-- `delete_like` (`backend/app/api/endpoints/tweets.py`): authenticate;
404 when no like by this user on this tweet exists; otherwise delete the
found row (by primary key). -/
def delete_like (s : Store) (api_key : String) (tweet_id : Nat) :
    ApiResult × Store :=
  match get_user_by_api_key s api_key with
  | none => (.apiError 401 "authentication_error", s)
  | some u =>
    match get_like_by_tweet_and_user_id s tweet_id u.id with
    | none => (.apiError 404 "not_found", s)
    | some like =>
      (.done, { s with likes := s.likes.filter (fun l => l.id ≠ like.id) })

/-- `create_follow` (`backend/app/api/endpoints/users.py`): authenticate;
404 when the target user is missing OR is the requester (no self-follow);
409 when the (follower, following) edge already exists; otherwise insert
the follow row. -/
def create_follow (s : Store) (api_key : String) (user_id : Nat) :
    ApiResult × Store :=
  match get_user_by_api_key s api_key with
  | none => (.apiError 401 "authentication_error", s)
  | some u =>
    match get_user_by_id s user_id with
    | none => (.apiError 404 "not_found", s)
    | some following =>
      if following.id = u.id then (.apiError 404 "not_found", s)
      else
        match get_follow_by_users_id s u.id user_id with
        | some _ => (.apiError 409 "follow_already_exists", s)
        | none =>
          (.done,
            { s with follows := s.follows ++ [{ id := s.next_id,
                                                follower_id := u.id,
                                                following_id := following.id }],
                     next_id := s.next_id + 1 })

/-- `delete_follow` (`backend/app/api/endpoints/users.py`): authenticate;
404 when the edge is missing; otherwise delete the found row. -/
def delete_follow (s : Store) (api_key : String) (user_id : Nat) :
    ApiResult × Store :=
  match get_user_by_api_key s api_key with
  | none => (.apiError 401 "authentication_error", s)
  | some u =>
    match get_follow_by_users_id s u.id user_id with
    | none => (.apiError 404 "not_found", s)
    | some follow =>
      (.done, { s with follows := s.follows.filter (fun f => f.id ≠ follow.id) })

/-- One API mutation, plus user provisioning.  `add_user` models the user
insertion of `backend/scripts/fill_db.py` (`insert(User)`); the HTTP API
itself never creates users, so without it every run from the empty store
is vacuous. -/
inductive Op where
  | add_user (name api_key : String)
  | op_create_tweet (api_key content : String) (tweet_media_ids : List Nat)
  | op_upload_media (cfg : Config) (api_key content_type : String)
      (file_size : Nat) (filename fresh_name : String)
  | op_delete_tweet (remove_fails : String → Bool) (api_key : String)
      (tweet_id : Nat)
  | op_create_like (api_key : String) (tweet_id : Nat)
  | op_delete_like (api_key : String) (tweet_id : Nat)
  | op_create_follow (api_key : String) (user_id : Nat)
  | op_delete_follow (api_key : String) (user_id : Nat)

/-- Effect of one operation on the store (responses discarded). -/
def apply_op (op : Op) (s : Store) : Store :=
  match op with
  | .add_user name api_key =>
    { s with users := s.users ++ [{ id := s.next_id, name := name,
                                    api_key := api_key }],
             next_id := s.next_id + 1 }
  | .op_create_tweet api_key content ids => (create_tweet s api_key content ids).2
  | .op_upload_media cfg api_key ct fs fn fresh =>
    (upload_media cfg s api_key ct fs fn fresh).2
  | .op_delete_tweet rf api_key tid => (delete_tweet rf s api_key tid).2
  | .op_create_like api_key tid => (create_like s api_key tid).2
  | .op_delete_like api_key tid => (delete_like s api_key tid).2
  | .op_create_follow api_key uid => (create_follow s api_key uid).2
  | .op_delete_follow api_key uid => (delete_follow s api_key uid).2

/-- The empty store. -/
def empty_store : Store :=
  { users := [], tweets := [], medias := [], likes := [], follows := [],
    uploaded_files := [], next_id := 1 }

/-- Run a sequence of operations from the empty store. -/
def run_ops (ops : List Op) : Store :=
  ops.foldl (fun s op => apply_op op s) empty_store

/-- At most one like row per (user, tweet) pair. -/
def LikeUnique (s : Store) : Prop :=
  (s.likes.map (fun l => (l.user_id, l.tweet_id))).Nodup

/-- At most one follow row per (follower, following) pair. -/
def FollowUnique (s : Store) : Prop :=
  (s.follows.map (fun f => (f.follower_id, f.following_id))).Nodup

/-- No follow row is a self-follow. -/
def NoSelfFollow (s : Store) : Prop :=
  ∀ f ∈ s.follows, f.follower_id ≠ f.following_id

/-- The engagement-store invariants of the spec's data model. -/
def EngagementInvariants (s : Store) : Prop :=
  LikeUnique s ∧ FollowUnique s ∧ NoSelfFollow s

instance (s : Store) : Decidable (LikeUnique s) := by
  unfold LikeUnique
  infer_instance

instance (s : Store) : Decidable (FollowUnique s) := by
  unfold FollowUnique
  infer_instance

instance (s : Store) : Decidable (NoSelfFollow s) := by
  unfold NoSelfFollow
  infer_instance

/-- `Follow.follower_id == req_id` holds for some edge pointing at `target`:
"the requesting user follows `target`". -/
def is_followed (s : Store) (req_id target : Nat) : Bool :=
  s.follows.any (fun f => f.follower_id == req_id && f.following_id == target)

/-- The spec's ranking aggregate, stated in its own words: the number of
DISTINCT users followed by the requester who liked the tweet (spec §4.1:
"the count is the number of qualifying liking users, not the number of
join rows").  Declared for comparison with `followed_user_likes_count`,
which counts join rows as the SQL does. -/
def distinct_qualifying_likers (s : Store) (req_id tweet_id : Nat) : Nat :=
  (((s.likes.filter (fun l =>
    l.tweet_id == tweet_id && is_followed s req_id l.user_id)).map
      (fun l => l.user_id)).dedup).length

/-! ### Concrete stores used by witnesses and counterexamples -/

/-- Users 1, 2, 3; user 1 follows user 2; tweet 1 by user 2 (liked by
user 2), tweet 2 by user 3, tweet 3 by user 1; one media row attached to
tweet 1. -/
def demo_store : Store :=
  { users := [⟨1, "A", "k1"⟩, ⟨2, "B", "k2"⟩, ⟨3, "C", "k3"⟩],
    tweets := [⟨1, "t1", 2⟩, ⟨2, "t2", 3⟩, ⟨3, "t3", 1⟩],
    medias := [⟨7, "uploads/m.png", some 1, 2⟩],
    likes := [⟨20, 2, 1⟩],
    follows := [⟨10, 1, 2⟩],
    uploaded_files := ["m.png"],
    next_id := 30 }

/-- User 1 follows user 2; tweets 1 and 2 both by user 2; only tweet 1 has
a like by a followed user (user 2). -/
def feed_store : Store :=
  { users := [⟨1, "A", "k1"⟩, ⟨2, "B", "k2"⟩],
    tweets := [⟨1, "t1", 2⟩, ⟨2, "t2", 2⟩],
    medias := [], likes := [⟨20, 2, 1⟩], follows := [⟨10, 1, 2⟩],
    uploaded_files := [], next_id := 30 }

/-- Tweet 1 is owned by user 1 and has one like (by user 2). -/
def liked_tweet_store : Store :=
  { users := [⟨1, "A", "k1"⟩, ⟨2, "B", "k2"⟩],
    tweets := [⟨1, "t1", 1⟩],
    medias := [], likes := [⟨20, 2, 1⟩], follows := [],
    uploaded_files := [], next_id := 30 }

/-- Media row 7 is owned by user 1 and ALREADY attached to tweet 1. -/
def attached_media_store : Store :=
  { users := [⟨1, "A", "k1"⟩],
    tweets := [⟨1, "t1", 1⟩],
    medias := [⟨7, "uploads/x.png", some 1, 1⟩],
    likes := [], follows := [],
    uploaded_files := ["x.png"], next_id := 2 }

/-- Tweet 1 (owned by user 1, no likes) has two media files a.png, b.png. -/
def two_files_store : Store :=
  { users := [⟨1, "A", "k1"⟩],
    tweets := [⟨1, "t1", 1⟩],
    medias := [⟨7, "uploads/a.png", some 1, 1⟩, ⟨8, "uploads/b.png", some 1, 1⟩],
    likes := [], follows := [],
    uploaded_files := ["a.png", "b.png"], next_id := 9 }

/-- One authenticated user, nothing else. -/
def upload_store : Store :=
  { users := [⟨1, "A", "k1"⟩],
    tweets := [], medias := [], likes := [], follows := [],
    uploaded_files := [], next_id := 2 }

/-- The deployment configuration documented by the spec and the tests:
`ALLOWED_TYPES="image/jpeg,image/png"`, `MAX_FILE_SIZE=5242880` (5 MB). -/
def demo_cfg : Config := ⟨"image/jpeg,image/png", 5242880⟩

/-! ### Theorems -/

/-- C2: the feed-ranking claim fails on the code.  In `feed_store`, tweet 1
has one like by a followed user and tweet 2 has none, so the claim requires
tweet 1 to precede tweet 2; but the query's `ORDER BY
followed_user_likes_count DESC` on PostgreSQL sorts the NULL produced by
the outer join (zero qualifying likes) FIRST, so the feed is [2, 1]. -/
theorem feed_ranking_nulls_first :
    followed_user_likes_count feed_store 1 1 = 1 ∧
    followed_user_likes_count feed_store 1 2 = 0 ∧
    (get_tweets_feed_rows feed_store 1).map Tweet.id = [2, 1] := by decide

/-- C4: deleting an owned tweet that has a like fails on the code.  The
`likes` relationship has no delete cascade and `likes.tweet_id` is NOT
NULL without `ondelete`, so the flush nullifies it and the transaction
fails: the caller gets a 500, the like row, the media row and the tweet
row all survive, and the tweet is still found afterwards. -/
theorem delete_tweet_with_like_fails :
    liked_tweet_store.likes = [⟨20, 2, 1⟩] ∧
    (delete_tweet (fun _ => false) liked_tweet_store "k1" 1).1 =
      .apiError 500 "server_error" ∧
    (delete_tweet (fun _ => false) liked_tweet_store "k1" 1).2 =
      liked_tweet_store ∧
    get_tweet_by_id (delete_tweet (fun _ => false) liked_tweet_store "k1" 1).2 1 =
      some ⟨1, "t1", 1⟩ := by decide

/-- C7: the best-effort claim fails on the code.  With two backing files
where removing a.png raises, all removal tasks still run (b.png is gone
from the directory), but `asyncio.gather` re-raises the failure, the
handler answers 500, and no row is deleted — the failure does surface as
an overall operation failure. -/
theorem delete_files_failure_surfaces :
    (delete_tweet (fun n => n == "a.png") two_files_store "k1" 1).1 =
      .apiError 500 "server_error" ∧
    (delete_tweet (fun n => n == "a.png") two_files_store "k1" 1).2.uploaded_files =
      ["a.png"] ∧
    (delete_tweet (fun n => n == "a.png") two_files_store "k1" 1).2.tweets =
      two_files_store.tweets ∧
    (delete_tweet (fun n => n == "a.png") two_files_store "k1" 1).2.medias =
      two_files_store.medias := by decide

/-- C6: a duplicate like is rejected with a 409 conflict envelope and the
store — in particular the number of like rows of the tweet — is unchanged. -/
theorem duplicate_like_conflict (s : Store) (u : User) (t : Tweet) (l : Like)
    (hkey : get_user_by_api_key s u.api_key = some u)
    (ht : get_tweet_by_id s t.id = some t)
    (hl : get_like_by_tweet_and_user_id s t.id u.id = some l) :
    (create_like s u.api_key t.id).1 = .apiError 409 "like_already_exists" ∧
    (create_like s u.api_key t.id).2 = s ∧
    ((create_like s u.api_key t.id).2.likes.filter
        (fun k => k.tweet_id == t.id)).length =
      (s.likes.filter (fun k => k.tweet_id == t.id)).length := by
  unfold create_like
  simp [hkey, ht, hl]

/-- Witness for C6 at a concrete input: user 2 already likes tweet 1. -/
theorem duplicate_like_conflict_witness :
    get_user_by_api_key demo_store "k2" = some ⟨2, "B", "k2"⟩ ∧
    get_tweet_by_id demo_store 1 = some ⟨1, "t1", 2⟩ ∧
    get_like_by_tweet_and_user_id demo_store 1 2 = some ⟨20, 2, 1⟩ ∧
    ((create_like demo_store "k2" 1).1 = .apiError 409 "like_already_exists" ∧
     (create_like demo_store "k2" 1).2 = demo_store ∧
     ((create_like demo_store "k2" 1).2.likes.filter
         (fun k => k.tweet_id == 1)).length =
       (demo_store.likes.filter (fun k => k.tweet_id == 1)).length) :=
  ⟨by decide, by decide, by decide,
    duplicate_like_conflict demo_store ⟨2, "B", "k2"⟩ ⟨1, "t1", 2⟩ ⟨20, 2, 1⟩
      (by decide) (by decide) (by decide)⟩

/-- C5 counterexample: media 7 is owned by user 1 but ALREADY attached to
tweet 1; the claim demands a not-found rejection with no pointer change,
yet `create_tweet` succeeds (only existence and ownership are counted,
unattachedness is never checked) and re-points the media to the new
tweet. -/
theorem create_tweet_attached_media_accepted :
    attached_media_store.medias = [⟨7, "uploads/x.png", some 1, 1⟩] ∧
    (create_tweet attached_media_store "k1" "hello" [7]).1 = .tweetCreated 2 ∧
    ((create_tweet attached_media_store "k1" "hello" [7]).2.medias.map
      TweetMedia.tweet_id) = [some 2] := by decide

/-- C5 (amended): with a non-empty media-id list, tweet creation succeeds
iff the number of media rows whose id is in the list AND whose owner is
the creator equals the list length (existence + ownership; being attached
already does not disqualify, and every listed media is (re-)pointed at the
new tweet); otherwise the whole request is rejected with 404 and the store
is unchanged, so a partially valid list never attaches its valid subset. -/
theorem create_tweet_media_validation (s : Store) (u : User)
    (content : String) (ids : List Nat)
    (hkey : get_user_by_api_key s u.api_key = some u) (hne : ids ≠ []) :
    ((s.medias.filter (fun m =>
        ids.contains m.id && m.user_id == u.id)).length = ids.length →
      (create_tweet s u.api_key content ids).1 = .tweetCreated s.next_id ∧
      (create_tweet s u.api_key content ids).2.medias =
        s.medias.map (fun m =>
          if ids.contains m.id then { m with tweet_id := some s.next_id }
          else m)) ∧
    ((s.medias.filter (fun m =>
        ids.contains m.id && m.user_id == u.id)).length ≠ ids.length →
      (create_tweet s u.api_key content ids).1 = .apiError 404 "not_found" ∧
      (create_tweet s u.api_key content ids).2 = s) := by
  unfold create_tweet
  simp only [hkey]
  constructor
  · intro hc
    have hcond : ¬(ids ≠ [] ∧
        (s.medias.filter (fun m =>
          ids.contains m.id && m.user_id == u.id)).length ≠ ids.length) :=
      fun h => h.2 hc
    simp only [if_neg hcond, if_neg hne]
    exact ⟨by trivial, by trivial⟩
  · intro hc
    simp only [if_pos (And.intro hne hc)]
    exact ⟨by trivial, by trivial⟩

/-- Witness for C5 (amended) at a concrete input: one valid id succeeds,
and the same list with a bogus id added is rejected wholesale. -/
theorem create_tweet_media_validation_witness :
    get_user_by_api_key demo_store "k2" = some ⟨2, "B", "k2"⟩ ∧
    ([7] : List Nat) ≠ [] ∧
    (((demo_store.medias.filter (fun m =>
        [7].contains m.id && m.user_id == 2)).length = [7].length →
      (create_tweet demo_store "k2" "hi" [7]).1 = .tweetCreated 30 ∧
      (create_tweet demo_store "k2" "hi" [7]).2.medias =
        demo_store.medias.map (fun m =>
          if [7].contains m.id then { m with tweet_id := some 30 } else m)) ∧
     ((demo_store.medias.filter (fun m =>
        [7].contains m.id && m.user_id == 2)).length ≠ [7].length →
      (create_tweet demo_store "k2" "hi" [7]).1 = .apiError 404 "not_found" ∧
      (create_tweet demo_store "k2" "hi" [7]).2 = demo_store)) :=
  ⟨by decide, by decide,
    create_tweet_media_validation demo_store ⟨2, "B", "k2"⟩ "hi" [7]
      (by decide) (by decide)⟩

/-- C9 counterexample: an oversized file whose content type fails the
allowed-types check is rejected by the EARLIER content-type branch with
status 400, not with the claimed 413. -/
theorem oversized_upload_wrong_type_status :
    demo_cfg.max_file_size < 5242881 ∧
    (upload_media demo_cfg upload_store "k1" "text/plain" 5242881
      "big.png" "u1").1 = .apiError 400 "validation_error" := by decide

/-- C9 (amended): for every authenticated upload whose content type passes
the allowed-types check and whose size exceeds the configured maximum, the
response is the 413 error envelope and the store is unchanged: no media
row is created and no file is written. -/
theorem oversized_upload_rejected (cfg : Config) (s : Store) (u : User)
    (content_type : String) (file_size : Nat) (filename fresh_name : String)
    (hkey : get_user_by_api_key s u.api_key = some u)
    (htype : str_contains cfg.allowed_types content_type = true)
    (hsize : cfg.max_file_size < file_size) :
    (upload_media cfg s u.api_key content_type file_size filename
      fresh_name).1 = .apiError 413 "validation_error" ∧
    (upload_media cfg s u.api_key content_type file_size filename
      fresh_name).2 = s := by
  unfold upload_media
  rw [hkey]
  rw [htype]
  simp only [Bool.not_true, Bool.false_eq_true, if_false]
  rw [if_pos hsize]
  exact ⟨rfl, rfl⟩

/-- `str_contains` is exactly substring containment of the character
sequences: Python's `needle in hay` for strings. -/
theorem str_contains_iff_substring (hay needle : String) :
    str_contains hay needle = true ↔ needle.toList <:+: hay.toList := by
  unfold str_contains
  rw [List.any_eq_true]
  constructor
  · rintro ⟨i, _, hpre⟩
    rw [List.isPrefixOf_iff_prefix] at hpre
    obtain ⟨t, ht⟩ := hpre
    refine ⟨hay.toList.take i, t, ?_⟩
    rw [List.append_assoc, ht, List.take_append_drop]
  · rintro ⟨p, t, h⟩
    refine ⟨p.length, ?_, ?_⟩
    · rw [List.mem_range]
      refine Nat.lt_succ_of_le ?_
      rw [← h]
      simp [List.length_append]
    · rw [List.isPrefixOf_iff_prefix, ← h, List.append_assoc, List.drop_left]
      exact List.prefix_append _ _

/-- C10 counterexample: with the configured string
"image/jpeg,image/png", the content type "e,i" is NOT a substring (the
comma is preceded by a g, not an e), so — contrary to the claim's example —
it is rejected with a validation error, not accepted. -/
theorem content_type_example_rejected :
    str_contains "image/jpeg,image/png" "e,i" = false ∧
    (upload_media demo_cfg upload_store "k1" "e,i" 10 "a.png" "u1").1 =
      .apiError 400 "validation_error" := by decide

/-- C10 (amended): the content-type check is substring containment of the
request's content type in the raw configured string (with
"image/jpeg,image/png": "image/png" is accepted but so are "g,i" and
"png"); for an authenticated request within the size limit the upload
succeeds iff the content type occurs as a contiguous substring, and a
content type that does not occur is rejected with a validation error and
no change to the store. -/
theorem content_type_substring_semantics (cfg : Config) (s : Store) (u : User)
    (ct : String) (file_size : Nat) (filename fresh_name : String)
    (hkey : get_user_by_api_key s u.api_key = some u)
    (hsize : file_size ≤ cfg.max_file_size) :
    ((upload_media cfg s u.api_key ct file_size filename fresh_name).1 =
        .mediaUploaded s.next_id ↔ ct.toList <:+: cfg.allowed_types.toList) ∧
    (¬ ct.toList <:+: cfg.allowed_types.toList →
      (upload_media cfg s u.api_key ct file_size filename fresh_name).1 =
        .apiError 400 "validation_error" ∧
      (upload_media cfg s u.api_key ct file_size filename fresh_name).2 = s) := by
  have hnotlt : ¬ (cfg.max_file_size < file_size) := Nat.not_lt.mpr hsize
  unfold upload_media
  simp only [hkey]
  by_cases hc : str_contains cfg.allowed_types ct = true
  · have hinf : ct.toList <:+: cfg.allowed_types.toList :=
      (str_contains_iff_substring cfg.allowed_types ct).1 hc
    rw [hc, Bool.not_true, if_neg Bool.false_ne_true, if_neg hnotlt]
    exact ⟨⟨fun _ => hinf, fun _ => rfl⟩, fun hni => absurd hinf hni⟩
  · have hni : ¬ ct.toList <:+: cfg.allowed_types.toList :=
      fun hinf => hc ((str_contains_iff_substring cfg.allowed_types ct).2 hinf)
    have hcf : str_contains cfg.allowed_types ct = false := by
      revert hc
      cases str_contains cfg.allowed_types ct <;> simp
    rw [hcf, Bool.not_false, if_pos rfl]
    exact ⟨⟨fun h => ApiResult.noConfusion h, fun hinf => absurd hinf hni⟩,
      fun _ => ⟨rfl, rfl⟩⟩

/-- Witness for C10 (amended): the content type "g,i" (a substring of the
configured string purely by accident of adjacency) is accepted. -/
theorem content_type_substring_semantics_witness :
    get_user_by_api_key upload_store "k1" = some ⟨1, "A", "k1"⟩ ∧
    (10 : Nat) ≤ demo_cfg.max_file_size ∧
    (((upload_media demo_cfg upload_store "k1" "g,i" 10 "a.png" "u1").1 =
        .mediaUploaded 2 ↔
        ("g,i" : String).toList <:+: demo_cfg.allowed_types.toList) ∧
     (¬ ("g,i" : String).toList <:+: demo_cfg.allowed_types.toList →
      (upload_media demo_cfg upload_store "k1" "g,i" 10 "a.png" "u1").1 =
        .apiError 400 "validation_error" ∧
      (upload_media demo_cfg upload_store "k1" "g,i" 10 "a.png" "u1").2 =
        upload_store)) :=
  ⟨by decide, by decide,
    content_type_substring_semantics demo_cfg upload_store ⟨1, "A", "k1"⟩
      "g,i" 10 "a.png" "u1" (by decide) (by decide)⟩

/-- Witness for C9 (amended): a 5 MB + 1 byte PNG upload. -/
theorem oversized_upload_rejected_witness :
    get_user_by_api_key upload_store "k1" = some ⟨1, "A", "k1"⟩ ∧
    str_contains demo_cfg.allowed_types "image/png" = true ∧
    demo_cfg.max_file_size < 5242881 ∧
    ((upload_media demo_cfg upload_store "k1" "image/png" 5242881
       "big.png" "u1").1 = .apiError 413 "validation_error" ∧
     (upload_media demo_cfg upload_store "k1" "image/png" 5242881
       "big.png" "u1").2 = upload_store) :=
  ⟨by decide, by decide, by decide,
    oversized_upload_rejected demo_cfg upload_store ⟨1, "A", "k1"⟩
      "image/png" 5242881 "big.png" "u1" (by decide) (by decide) (by decide)⟩

/-- A tweet row survives the feed query's FROM/JOIN/WHERE for one base
tweet iff it IS that tweet, the author row exists (inner join), and the
eligibility disjunction holds. -/
theorem mem_feed_rows_for {s : Store} {req_id : Nat} {t t' : Tweet} :
    t' ∈ feed_rows_for s req_id t ↔
      t' = t ∧ (∃ a ∈ s.users, a.id = t.user_id) ∧
        (t.user_id = req_id ∨
          ∃ f ∈ s.follows, f.follower_id = req_id ∧ f.following_id = t.user_id) := by
  unfold feed_rows_for
  by_cases hfs : s.follows.filter
      (fun f => f.following_id == t.user_id && f.follower_id == req_id) = []
  · rw [hfs]
    have hnofol : ¬ ∃ f ∈ s.follows,
        f.follower_id = req_id ∧ f.following_id = t.user_id := by
      rw [List.filter_eq_nil_iff] at hfs
      rintro ⟨f, hf, h1, h2⟩
      exact absurd (by simp [h1, h2]) (hfs f hf)
    simp [List.mem_flatMap, List.mem_filter, List.mem_map, hnofol]
    tauto
  · have hex : ∃ f ∈ s.follows,
        f.follower_id = req_id ∧ f.following_id = t.user_id := by
      rcases List.exists_mem_of_ne_nil _ hfs with ⟨f, hf⟩
      have := List.mem_filter.1 hf
      refine ⟨f, this.1, ?_, ?_⟩
      · have h2 := this.2
        simp at h2
        exact h2.2
      · have h2 := this.2
        simp at h2
        exact h2.1
    simp [List.mem_flatMap, List.mem_filter, List.mem_map, List.isEmpty_iff,
      hfs, hex]
    constructor
    · rintro ⟨hu, _, ht'⟩
      exact ⟨ht', hu⟩
    · rintro ⟨ht', hu⟩
      obtain ⟨f, hf, h1, h2⟩ := hex
      exact ⟨hu, ⟨some f, f, hf, h2, h1, rfl,
        fun hall => absurd h1 (hall f rfl)⟩, ht'⟩

/-- Membership in the feed query's row set, before ordering. -/
theorem mem_feed_rows {s : Store} {req_id : Nat} {t : Tweet} :
    t ∈ feed_rows s req_id ↔
      t ∈ s.tweets ∧ (∃ a ∈ s.users, a.id = t.user_id) ∧
        (t.user_id = req_id ∨
          ∃ f ∈ s.follows, f.follower_id = req_id ∧ f.following_id = t.user_id) := by
  unfold feed_rows
  rw [List.mem_flatMap]
  constructor
  · rintro ⟨x, hx, hmem⟩
    rcases mem_feed_rows_for.1 hmem with ⟨rfl, h2, h3⟩
    exact ⟨hx, h2, h3⟩
  · rintro ⟨hx, h2, h3⟩
    exact ⟨t, hx, mem_feed_rows_for.2 ⟨rfl, h2, h3⟩⟩

/-- C1: Feed eligibility.  For an authenticated requesting user U and any
tweet T in the store (whose author row exists, per the FK), GET /tweets
returns the formatted sorted rows, and T is among the returned rows iff
T's author is U or U follows T's author — own tweets always appear, and
tweets by a non-self non-followed author never do. -/
theorem feed_eligibility (s : Store) (u : User) (t : Tweet)
    (hkey : get_user_by_api_key s u.api_key = some u)
    (ht : t ∈ s.tweets)
    (hfk : ∃ a ∈ s.users, a.id = t.user_id) :
    get_tweets_feed s u.api_key =
      .feed (format_tweets s (get_tweets_feed_rows s u.id)) ∧
    (t ∈ get_tweets_feed_rows s u.id ↔
      (t.user_id = u.id ∨
        ∃ f ∈ s.follows, f.follower_id = u.id ∧ f.following_id = t.user_id)) := by
  constructor
  · unfold get_tweets_feed
    rw [hkey]
  · unfold get_tweets_feed_rows
    rw [List.mem_insertionSort, mem_feed_rows]
    tauto

/-- Witness for C1: in `demo_store`, user 1 does not follow user 3 and is
not user 3, so tweet 2 (authored by 3) is not in user 1's feed. -/
theorem feed_eligibility_witness :
    get_user_by_api_key demo_store "k1" = some ⟨1, "A", "k1"⟩ ∧
    (⟨2, "t2", 3⟩ : Tweet) ∈ demo_store.tweets ∧
    (∃ a ∈ demo_store.users, a.id = 3) ∧
    (get_tweets_feed demo_store "k1" =
      .feed (format_tweets demo_store (get_tweets_feed_rows demo_store 1)) ∧
     ((⟨2, "t2", 3⟩ : Tweet) ∈ get_tweets_feed_rows demo_store 1 ↔
       ((3 : Nat) = 1 ∨
        ∃ f ∈ demo_store.follows,
          f.follower_id = 1 ∧ f.following_id = 3))) :=
  ⟨by decide, by decide, by decide,
    feed_eligibility demo_store ⟨1, "A", "k1"⟩ ⟨2, "t2", 3⟩
      (by decide) (by decide) (by decide)⟩

/-- Length of a flatMap as a sum of lengths. -/
theorem length_flatMap_sum {α β : Type} (l : List α) (f : α → List β) :
    (l.flatMap f).length = (l.map (fun a => (f a).length)).sum := by
  induction l with
  | nil => rfl
  | cons a l ih => simp [List.flatMap_cons, ih]

/-- Summing an indicator over a list counts the filtered elements. -/
theorem sum_map_ite_length {α : Type} (l : List α) (p : α → Bool) :
    (l.map (fun x => if p x then 1 else 0)).sum = (l.filter p).length := by
  induction l with
  | nil => rfl
  | cons a l ih =>
    by_cases h : p a
    · simp [h, List.filter_cons, ih, Nat.add_comm]
    · simp [h, List.filter_cons, ih]

/-- Summing a constant over a list. -/
theorem sum_map_const_nat {α : Type} (l : List α) (c : Nat) :
    (l.map (fun _ => c)).sum = l.length * c := by
  induction l with
  | nil => simp
  | cons a l ih => simp [ih, Nat.succ_mul, Nat.add_comm]

/-- When the images under f are distinct and some element maps to v, the
predicate matching exactly the f-preimage of v selects exactly one
element. -/
theorem length_filter_eq_one_of_nodup_map {α β : Type} [DecidableEq β]
    {l : List α} {f : α → β} {v : β} {p : α → Bool}
    (hp : ∀ x, p x = true ↔ f x = v)
    (hnd : (l.map f).Nodup) (hex : ∃ a ∈ l, f a = v) :
    (l.filter p).length = 1 := by
  induction l with
  | nil => simp at hex
  | cons a l ih =>
    rw [List.map_cons, List.nodup_cons] at hnd
    by_cases h : f a = v
    · have hpa : p a = true := (hp a).2 h
      have hnone : l.filter p = [] := by
        rw [List.filter_eq_nil_iff]
        intro x hx hbx
        exact hnd.1 (List.mem_map.2 ⟨x, hx, ((hp x).1 hbx).trans h.symm⟩)
      simp [List.filter_cons, hpa, hnone]
    · have hpa : ¬ p a = true := fun hb => h ((hp a).1 hb)
      obtain ⟨x, hx, hfx⟩ := hex
      rcases List.mem_cons.1 hx with rfl | hx'
      · exact absurd hfx h
      · simp [List.filter_cons, hpa, ih hnd.2 ⟨x, hx', hfx⟩]

/-- Under uniqueness of (follower, following) pairs, the follow edges join
clause matches exactly one row when the requester follows the target and
zero rows otherwise. -/
theorem follows_filter_length (s : Store) (req_id v : Nat)
    (hfol : FollowUnique s) :
    (s.follows.filter
      (fun f => f.following_id == v && f.follower_id == req_id)).length =
      if is_followed s req_id v then 1 else 0 := by
  by_cases h : is_followed s req_id v
  · rw [if_pos h]
    unfold is_followed at h
    rw [List.any_eq_true] at h
    obtain ⟨f, hf, hpf⟩ := h
    simp only [Bool.and_eq_true, beq_iff_eq] at hpf
    have hfol' : (s.follows.map
        (fun g => (g.follower_id, g.following_id))).Nodup := hfol
    exact length_filter_eq_one_of_nodup_map
      (f := fun g => (g.follower_id, g.following_id)) (v := (req_id, v))
      (by
        intro x
        simp only [Bool.and_eq_true, beq_iff_eq, Prod.mk.injEq]
        exact and_comm)
      hfol' ⟨f, hf, by simp [hpf.1, hpf.2]⟩
  · rw [if_neg h]
    unfold is_followed at h
    have hnil : s.follows.filter
        (fun f => f.following_id == v && f.follower_id == req_id) = [] := by
      rw [List.filter_eq_nil_iff]
      intro f hf hp
      apply h
      rw [List.any_eq_true]
      refine ⟨f, hf, ?_⟩
      simp only [Bool.and_eq_true, beq_iff_eq] at hp ⊢
      tauto
    rw [hnil]
    rfl

/-- The CTE's join-row count collapses to the number of like rows on the
tweet that were placed by a followed user: with unique user ids each like
joins one user row, and with unique follow pairs at most one follow row. -/
theorem followed_user_likes_count_eq (s : Store) (req_id tid : Nat)
    (husers : (s.users.map User.id).Nodup)
    (hfol : FollowUnique s)
    (hlfk : ∀ l ∈ s.likes, ∃ a ∈ s.users, a.id = l.user_id) :
    followed_user_likes_count s req_id tid =
      ((s.likes.filter (fun l => l.tweet_id == tid)).filter
        (fun l => is_followed s req_id l.user_id)).length := by
  unfold followed_user_likes_count
  rw [length_flatMap_sum, ← sum_map_ite_length]
  congr 1
  apply List.map_congr_left
  intro l hl
  have hl' : l ∈ s.likes := List.mem_of_mem_filter hl
  rw [length_flatMap_sum]
  have hmap : (s.users.filter (fun u => u.id == l.user_id)).map
      (fun u => (s.follows.filter
        (fun f => f.following_id == u.id && f.follower_id == req_id)).length) =
      (s.users.filter (fun u => u.id == l.user_id)).map
      (fun _ => if is_followed s req_id l.user_id then 1 else 0) := by
    apply List.map_congr_left
    intro u hu
    have huid : u.id = l.user_id := by
      have := (List.mem_filter.1 hu).2
      simpa using this
    rw [huid, follows_filter_length s req_id l.user_id hfol]
  rw [hmap, sum_map_const_nat,
    length_filter_eq_one_of_nodup_map (f := User.id) (v := l.user_id)
      (by intro x; simp) husers (hlfk l hl'), one_mul]

/-- Under like uniqueness per (user, tweet), the likers of one tweet
(restricted by any predicate on the liker) are pairwise distinct users. -/
theorem likes_filter_map_user_id_nodup (s : Store) (tid : Nat)
    (q : Like → Bool) (hlike : LikeUnique s)
    (hq : ∀ l, q l = true → l.tweet_id = tid) :
    ((s.likes.filter q).map (fun l => l.user_id)).Nodup := by
  have hsub : List.Sublist
      ((s.likes.filter q).map (fun l => (l.user_id, l.tweet_id)))
      (s.likes.map (fun l => (l.user_id, l.tweet_id))) :=
    (List.filter_sublist s.likes).map _
  have hnd : ((s.likes.filter q).map
      (fun l => (l.user_id, l.tweet_id))).Nodup := hlike.sublist hsub
  have hmm : ((s.likes.filter q).map (fun l => l.user_id)) =
      ((s.likes.filter q).map (fun l => (l.user_id, l.tweet_id))).map
        Prod.fst := by
    rw [List.map_map]
    rfl
  rw [hmm]
  refine List.Nodup.map_on ?_ hnd
  intro x hx y hy hfst
  rcases List.mem_map.1 hx with ⟨lx, hlx, rfl⟩
  rcases List.mem_map.1 hy with ⟨ly, hly, rfl⟩
  have htx : lx.tweet_id = tid := hq lx (List.of_mem_filter hlx)
  have hty : ly.tweet_id = tid := hq ly (List.of_mem_filter hly)
  simp only [Prod.mk.injEq]
  exact ⟨hfst, htx.trans hty.symm⟩

/-- The user ids in a formatted tweet's like list are exactly the user ids
of its like rows, in order. -/
theorem format_tweet_likes_user_ids (s : Store) (t : Tweet) :
    (format_tweet s t).likes.map LikerView.user_id =
      (s.likes.filter (fun l => l.tweet_id == t.id)).map
        (fun l => l.user_id) := by
  unfold format_tweet
  rw [List.map_map]
  apply List.map_congr_left
  intro l hl
  simp only [Function.comp]
  cases hfind : s.users.find? (fun u => u.id == l.user_id) with
  | none => rfl
  | some u =>
    have hpu := List.find?_some hfind
    simp only [beq_iff_eq] at hpu
    simp [hpu]

/-- Filtering by a commuted conjunction gives the same list. -/
theorem filter_and_comm {α : Type} (p q : α → Bool) (l : List α) :
    l.filter (fun a => p a && q a) = l.filter (fun a => q a && p a) := by
  apply List.filter_congr
  intro a _
  rw [Bool.and_comm]

/-- C3: No fan-out inflation.  Under the store's integrity invariants
(unique user ids, unique (user, tweet) like pairs, unique follow pairs,
likes referencing existing users, distinct media locators), for every
tweet in the returned feed the ranking aggregate equals the number of
DISTINCT followed likers (not join rows), and the formatted object carries
one attachment entry per media row (no duplicates) and one liker entry per
like row — the full liker set — with no duplicated liker. -/
theorem feed_no_fanout_inflation (s : Store) (req_id : Nat) (t : Tweet)
    (husers : (s.users.map User.id).Nodup)
    (hlike : LikeUnique s)
    (hfol : FollowUnique s)
    (hlfk : ∀ l ∈ s.likes, ∃ a ∈ s.users, a.id = l.user_id)
    (hurl : (s.medias.map TweetMedia.url).Nodup)
    (htf : t ∈ get_tweets_feed_rows s req_id) :
    followed_user_likes_count s req_id t.id =
      distinct_qualifying_likers s req_id t.id ∧
    (format_tweet s t).attachments.Nodup ∧
    (format_tweet s t).attachments.length =
      (s.medias.filter (fun m => m.tweet_id == some t.id)).length ∧
    ((format_tweet s t).likes.map LikerView.user_id).Nodup ∧
    (format_tweet s t).likes.length =
      (s.likes.filter (fun l => l.tweet_id == t.id)).length := by
  refine ⟨?_, ?_, ?_, ?_, ?_⟩
  · rw [followed_user_likes_count_eq s req_id t.id husers hfol hlfk,
      List.filter_filter]
    unfold distinct_qualifying_likers
    have hnd := likes_filter_map_user_id_nodup s t.id
      (fun l => l.tweet_id == t.id && is_followed s req_id l.user_id) hlike
      (fun l hl => by
        simp only [Bool.and_eq_true, beq_iff_eq] at hl
        exact hl.1)
    rw [List.dedup_eq_self.2 hnd, List.length_map, filter_and_comm]
  · have hsub : List.Sublist
        ((s.medias.filter (fun m => m.tweet_id == some t.id)).map
          (fun m => m.url))
        (s.medias.map (fun m => m.url)) :=
      (List.filter_sublist s.medias).map _
    exact List.Nodup.sublist hsub hurl
  · simp [format_tweet]
  · rw [format_tweet_likes_user_ids]
    exact likes_filter_map_user_id_nodup s t.id
      (fun l => l.tweet_id == t.id) hlike
      (fun l hl => by simpa using hl)
  · simp [format_tweet]

/-- Witness for C3 at `demo_store`: tweet 1 (in user 1's feed) has one
followed liker; all integrity hypotheses hold by evaluation. -/
theorem feed_no_fanout_inflation_witness :
    (demo_store.users.map User.id).Nodup ∧
    LikeUnique demo_store ∧
    FollowUnique demo_store ∧
    (∀ l ∈ demo_store.likes, ∃ a ∈ demo_store.users, a.id = l.user_id) ∧
    (demo_store.medias.map TweetMedia.url).Nodup ∧
    (⟨1, "t1", 2⟩ : Tweet) ∈ get_tweets_feed_rows demo_store 1 ∧
    (followed_user_likes_count demo_store 1 1 =
      distinct_qualifying_likers demo_store 1 1 ∧
     (format_tweet demo_store ⟨1, "t1", 2⟩).attachments.Nodup ∧
     (format_tweet demo_store ⟨1, "t1", 2⟩).attachments.length =
       (demo_store.medias.filter (fun m => m.tweet_id == some 1)).length ∧
     ((format_tweet demo_store ⟨1, "t1", 2⟩).likes.map LikerView.user_id).Nodup ∧
     (format_tweet demo_store ⟨1, "t1", 2⟩).likes.length =
       (demo_store.likes.filter (fun l => l.tweet_id == 1)).length) :=
  ⟨by decide, by decide, by decide, by decide, by decide, by decide,
    feed_no_fanout_inflation demo_store 1 ⟨1, "t1", 2⟩
      (by decide) (by decide) (by decide) (by decide) (by decide) (by decide)⟩

/-- The empty store satisfies the engagement invariants. -/
theorem invariants_empty : EngagementInvariants empty_store := by
  refine ⟨?_, ?_, ?_⟩
  · simp [LikeUnique, empty_store]
  · simp [FollowUnique, empty_store]
  · intro f hf
    simp [empty_store] at hf

/-- Every modelled operation preserves the engagement invariants:
`create_like` rejects an existing (user, tweet) pair with 409 before
inserting, `create_follow` rejects a self-follow with 404 and an existing
edge with 409, deletions only remove rows, and the remaining operations
leave likes and follows untouched. -/
theorem invariants_apply_op (op : Op) (s : Store)
    (h : EngagementInvariants s) : EngagementInvariants (apply_op op s) := by
  obtain ⟨h1, h2, h3⟩ := h
  cases op with
  | add_user name api_key => exact ⟨h1, h2, h3⟩
  | op_create_tweet api_key content ids =>
    simp only [apply_op]
    unfold create_tweet
    cases get_user_by_api_key s api_key with
    | none => exact ⟨h1, h2, h3⟩
    | some u =>
      dsimp only
      split
      · exact ⟨h1, h2, h3⟩
      · exact ⟨h1, h2, h3⟩
  | op_upload_media cfg api_key ct fsz fn fresh =>
    simp only [apply_op]
    unfold upload_media
    cases get_user_by_api_key s api_key with
    | none => exact ⟨h1, h2, h3⟩
    | some u =>
      dsimp only
      split
      · exact ⟨h1, h2, h3⟩
      · split
        · exact ⟨h1, h2, h3⟩
        · exact ⟨h1, h2, h3⟩
  | op_delete_tweet rf api_key tid =>
    simp only [apply_op]
    unfold delete_tweet
    cases get_user_by_api_key s api_key with
    | none => exact ⟨h1, h2, h3⟩
    | some u =>
      dsimp only
      cases get_tweet_by_id s tid with
      | none => exact ⟨h1, h2, h3⟩
      | some t =>
        dsimp only
        split
        · exact ⟨h1, h2, h3⟩
        · split
          · exact ⟨h1, h2, h3⟩
          · split
            · exact ⟨h1, h2, h3⟩
            · exact ⟨h1, h2, h3⟩
  | op_create_like api_key tid =>
    simp only [apply_op]
    unfold create_like
    cases get_user_by_api_key s api_key with
    | none => exact ⟨h1, h2, h3⟩
    | some u =>
      dsimp only
      cases get_tweet_by_id s tid with
      | none => exact ⟨h1, h2, h3⟩
      | some t =>
        dsimp only
        cases hfind : get_like_by_tweet_and_user_id s tid u.id with
        | some l => exact ⟨h1, h2, h3⟩
        | none =>
          dsimp only
          refine ⟨?_, h2, h3⟩
          unfold LikeUnique at h1 ⊢
          rw [List.map_append, List.nodup_append]
          refine ⟨h1, by simp, ?_⟩
          intro a ha hb
          simp only [List.map_cons, List.map_nil, List.mem_singleton] at hb
          subst hb
          rcases List.mem_map.1 ha with ⟨l, hl, hpl⟩
          have hnone := List.find?_eq_none.1 hfind l hl
          apply hnone
          simp only [Prod.mk.injEq] at hpl
          simp [hpl.1, hpl.2]
  | op_delete_like api_key tid =>
    simp only [apply_op]
    unfold delete_like
    cases get_user_by_api_key s api_key with
    | none => exact ⟨h1, h2, h3⟩
    | some u =>
      dsimp only
      cases get_like_by_tweet_and_user_id s tid u.id with
      | none => exact ⟨h1, h2, h3⟩
      | some like =>
        dsimp only
        refine ⟨?_, h2, h3⟩
        unfold LikeUnique at h1 ⊢
        exact List.Nodup.sublist ((List.filter_sublist _).map _) h1
  | op_create_follow api_key uid =>
    simp only [apply_op]
    unfold create_follow
    cases get_user_by_api_key s api_key with
    | none => exact ⟨h1, h2, h3⟩
    | some u =>
      dsimp only
      cases hfu : get_user_by_id s uid with
      | none => exact ⟨h1, h2, h3⟩
      | some following =>
        dsimp only
        have hfid : following.id = uid := by
          have := List.find?_some hfu
          simpa using this
        by_cases hself : following.id = u.id
        · rw [if_pos hself]
          exact ⟨h1, h2, h3⟩
        · rw [if_neg hself]
          cases hff : get_follow_by_users_id s u.id uid with
          | some fl => exact ⟨h1, h2, h3⟩
          | none =>
            dsimp only
            refine ⟨h1, ?_, ?_⟩
            · unfold FollowUnique at h2 ⊢
              rw [List.map_append, List.nodup_append]
              refine ⟨h2, by simp, ?_⟩
              intro a ha hb
              simp only [List.map_cons, List.map_nil, List.mem_singleton] at hb
              subst hb
              rcases List.mem_map.1 ha with ⟨f, hf, hpf⟩
              have hnone := List.find?_eq_none.1 hff f hf
              apply hnone
              simp only [Prod.mk.injEq] at hpf
              simp [hpf.1, hpf.2, hfid]
            · intro f hf
              rcases List.mem_append.1 hf with hf' | hf'
              · exact h3 f hf'
              · simp only [List.mem_singleton] at hf'
                subst hf'
                exact fun he => hself (hfid ▸ he.symm)
  | op_delete_follow api_key uid =>
    simp only [apply_op]
    unfold delete_follow
    cases get_user_by_api_key s api_key with
    | none => exact ⟨h1, h2, h3⟩
    | some u =>
      dsimp only
      cases get_follow_by_users_id s u.id uid with
      | none => exact ⟨h1, h2, h3⟩
      | some fl =>
        dsimp only
        refine ⟨h1, ?_, ?_⟩
        · unfold FollowUnique at h2 ⊢
          exact List.Nodup.sublist ((List.filter_sublist _).map _) h2
        · intro f hf
          exact h3 f (List.mem_of_mem_filter hf)

/-- C8: in every state reachable from the empty store by any sequence of
operations, likes are unique per (user, tweet), follows are unique per
(follower, following), and no follow is a self-follow. -/
theorem engagement_invariants_reachable (ops : List Op) :
    EngagementInvariants (run_ops ops) := by
  have hstep : ∀ (l : List Op) (s : Store), EngagementInvariants s →
      EngagementInvariants (l.foldl (fun s op => apply_op op s) s) := by
    intro l
    induction l with
    | nil => intro s hs; exact hs
    | cons op l ih =>
      intro s hs
      exact ih _ (invariants_apply_op op s hs)
  exact hstep ops empty_store invariants_empty

end Microblog
